import Mathlib

/-!
Verification of the orders microservice core: circuit breaker, resilient
gateways, order aggregation, order lifecycle and the payment messaging
protocol.  Each definition is a shallow embedding of the corresponding
Python source; timestamps and monetary amounts are modelled as rationals,
machine behaviour that raises exceptions is modelled with `Except`, and
side effects (queue publishes, repository updates, message acks) are
modelled as explicit traces returned by the functions.
-/

/-- States of the circuit breaker, from `CircuitState` in
`tech/infra/circuit_breaker/circuit_breaker.py`. -/
inductive CircuitState where
  | CLOSED
  | OPEN
  | HALF_OPEN
deriving DecidableEq, Repr

/-- Mutable state and configuration of `CircuitBreaker` from
`tech/infra/circuit_breaker/circuit_breaker.py`. -/
structure CircuitBreaker where
  failure_threshold : Nat
  recovery_timeout : ℚ
  half_open_calls : Nat
  state : CircuitState
  failure_count : Nat
  last_failure_time : ℚ
  half_open_successes : Nat
deriving DecidableEq, Repr

/-- `CircuitBreaker.__init__`: fresh breaker in `CLOSED` with zeroed
counters and `last_failure_time = 0`. -/
def CircuitBreaker.init (F : Nat) (T : ℚ) (K : Nat) : CircuitBreaker :=
  { failure_threshold := F
    recovery_timeout := T
    half_open_calls := K
    state := .CLOSED
    failure_count := 0
    last_failure_time := 0
    half_open_successes := 0 }

/-- `CircuitBreaker.reset`: back to `CLOSED`, clearing the failure counter
and the half-open success counter. -/
def CircuitBreaker.reset (cb : CircuitBreaker) : CircuitBreaker :=
  { cb with state := .CLOSED, failure_count := 0, half_open_successes := 0 }

/-- `CircuitBreaker._handle_failure`: record the failure time; in
`HALF_OPEN` go back to `OPEN`; in `CLOSED` increment the failure counter
and open the circuit once the counter reaches the threshold. -/
def CircuitBreaker.handle_failure (cb : CircuitBreaker) (now : ℚ) : CircuitBreaker :=
  let cb1 := { cb with last_failure_time := now }
  if cb1.state = .HALF_OPEN then
    { cb1 with state := .OPEN }
  else if cb1.state = .CLOSED then
    let cb2 := { cb1 with failure_count := cb1.failure_count + 1 }
    if cb2.failure_threshold ≤ cb2.failure_count then { cb2 with state := .OPEN } else cb2
  else
    cb1

/-- Lines 35–46 of `CircuitBreaker.execute`: when the circuit is `OPEN`,
either reject (`none`, the `CircuitOpenError` path) or, when the elapsed
time since the last failure strictly exceeds the recovery timeout, move to
`HALF_OPEN` with a cleared half-open success counter and let the call
proceed. In any other state the call proceeds with the breaker unchanged. -/
def CircuitBreaker.openCheck (cb : CircuitBreaker) (now : ℚ) : Option CircuitBreaker :=
  if cb.state = .OPEN then
    if cb.recovery_timeout < now - cb.last_failure_time then
      some { cb with state := .HALF_OPEN, half_open_successes := 0 }
    else
      none
  else
    some cb

/-- Lines 52–58 of `CircuitBreaker.execute`: when the wrapped call
succeeded and the breaker is `HALF_OPEN`, count the success and reset the
breaker once the half-open quota is met; in any other state the breaker is
untouched. -/
def CircuitBreaker.onSuccess (cb : CircuitBreaker) : CircuitBreaker :=
  if cb.state = .HALF_OPEN then
    let cb1 := { cb with half_open_successes := cb.half_open_successes + 1 }
    if cb1.half_open_calls ≤ cb1.half_open_successes then cb1.reset else cb1
  else
    cb

/-- Result of a single `CircuitBreaker.execute` call: rejected with
`CircuitOpenError`, returned the wrapped call's value, or re-raised the
wrapped call's exception. -/
inductive ExecResult (ε α : Type) where
  | circuitOpen : ExecResult ε α
  | ok : α → ExecResult ε α
  | err : ε → ExecResult ε α
deriving DecidableEq, Repr

/-- `CircuitBreaker.execute`, where `outcome` is what the wrapped
operation would do if invoked and `now` is the wall-clock time of the
call.  Returns the result, whether the wrapped operation was actually
invoked, and the breaker's new state. -/
def CircuitBreaker.execute (cb : CircuitBreaker) (now : ℚ)
    (outcome : Except ε α) : ExecResult ε α × Bool × CircuitBreaker :=
  match cb.openCheck now with
  | none => (.circuitOpen, false, cb)
  | some cb1 =>
    match outcome with
    | .ok a => (.ok a, true, cb1.onSuccess)
    | .error e => (.err e, true, cb1.handle_failure now)

/-- Wrapped-operation outcome carrying no payload, for runs that only
track success versus failure. -/
def boolOutcome (b : Bool) : Except Unit Unit :=
  if b then .ok () else .error ()

/-- Fold a sequence of timestamped call outcomes through the breaker. -/
def CircuitBreaker.runSeq (cb : CircuitBreaker) : List (ℚ × Bool) → CircuitBreaker
  | [] => cb
  | ev :: rest => ((cb.execute ev.1 (boolOutcome ev.2)).2.2).runSeq rest

/-- Number of failure outcomes in a sequence of timestamped calls. -/
def failuresIn : List (ℚ × Bool) → Nat
  | [] => 0
  | ev :: rest => (if ev.2 then 0 else 1) + failuresIn rest

theorem execute_closed_ok (cb : CircuitBreaker) (now : ℚ) (a : α)
    (hs : cb.state = .CLOSED) :
    cb.execute now (Except.ok a) = ((.ok a : ExecResult ε α), true, cb) := by
  simp [CircuitBreaker.execute, CircuitBreaker.openCheck, CircuitBreaker.onSuccess, hs]

theorem execute_closed_err (cb : CircuitBreaker) (now : ℚ) (e : ε)
    (hs : cb.state = .CLOSED) :
    cb.execute now (Except.error e) =
      ((.err e : ExecResult ε α), true,
       if cb.failure_threshold ≤ cb.failure_count + 1 then
         { cb with last_failure_time := now, failure_count := cb.failure_count + 1,
                   state := .OPEN }
       else
         { cb with last_failure_time := now, failure_count := cb.failure_count + 1 }) := by
  simp only [CircuitBreaker.execute, CircuitBreaker.openCheck, CircuitBreaker.handle_failure, hs]
  split <;> simp_all

theorem runSeq_closed (evs : List (ℚ × Bool)) :
    ∀ cb : CircuitBreaker, cb.state = .CLOSED →
      cb.failure_count + failuresIn evs < cb.failure_threshold →
      (cb.runSeq evs).state = .CLOSED ∧
      (cb.runSeq evs).failure_count = cb.failure_count + failuresIn evs ∧
      (cb.runSeq evs).failure_threshold = cb.failure_threshold := by
  induction evs with
  | nil =>
    intro cb hs _
    exact ⟨hs, by simp [CircuitBreaker.runSeq, failuresIn], rfl⟩
  | cons ev rest ih =>
    intro cb hs hc
    rcases ev with ⟨t, b⟩
    cases b with
    | true =>
      have hstep : (cb.execute t (boolOutcome true)).2.2 = cb := by
        rw [show boolOutcome true = Except.ok () from rfl, execute_closed_ok cb t () hs]
      have hc' : cb.failure_count + failuresIn rest < cb.failure_threshold := by
        simpa [failuresIn] using hc
      simpa [CircuitBreaker.runSeq, hstep, failuresIn] using ih cb hs hc'
    | false =>
      have hlt : cb.failure_count + 1 + failuresIn rest < cb.failure_threshold := by
        have := hc
        simp [failuresIn] at this
        omega
      have hnotOpen : ¬ cb.failure_threshold ≤ cb.failure_count + 1 := by omega
      have hstep : (cb.execute t (boolOutcome false)).2.2 =
          { cb with last_failure_time := t, failure_count := cb.failure_count + 1 } := by
        rw [show boolOutcome false = Except.error () from rfl, execute_closed_err cb t () hs]
        simp [hnotOpen]
      have ih' := ih { cb with last_failure_time := t, failure_count := cb.failure_count + 1 }
        (by simp [hs]) (by simpa using hlt)
      simp only [CircuitBreaker.runSeq, hstep, failuresIn]
      refine ⟨ih'.1, ?_, ?_⟩
      · rw [ih'.2.1]; simp; omega
      · simpa using ih'.2.2

theorem runSeq_append_single (evs : List (ℚ × Bool)) :
    ∀ cb : CircuitBreaker, ∀ t : ℚ, ∀ b : Bool,
      cb.runSeq (evs ++ [(t, b)]) = ((cb.runSeq evs).execute t (boolOutcome b)).2.2 := by
  induction evs with
  | nil => intro cb t b; rfl
  | cons ev rest ih =>
    intro cb t b
    simp only [List.cons_append, CircuitBreaker.runSeq]
    exact ih _ t b

/-- Claim C1: starting from a freshly initialised breaker with threshold
`F > 0`, any interleaving of failures and successes keeps the breaker
`CLOSED` with its failure counter equal to the cumulative number of
failures as long as that number stays below `F`; the call that records
the `F`-th failure moves the breaker to `OPEN` and records its timestamp;
a success observed while `CLOSED` changes neither the state nor the
failure counter; and only an explicit reset clears the counter. -/
theorem claim_C1_breaker_opens_at_threshold (F : Nat) (T : ℚ) (K : Nat)
    (evs : List (ℚ × Bool)) (hF : 0 < F) :
    (failuresIn evs < F →
       ((CircuitBreaker.init F T K).runSeq evs).state = .CLOSED ∧
       ((CircuitBreaker.init F T K).runSeq evs).failure_count = failuresIn evs) ∧
    (∀ t : ℚ, failuresIn evs = F - 1 →
       ((CircuitBreaker.init F T K).runSeq (evs ++ [(t, false)])).state = .OPEN ∧
       ((CircuitBreaker.init F T K).runSeq (evs ++ [(t, false)])).last_failure_time = t) ∧
    (∀ cb : CircuitBreaker, ∀ t : ℚ, cb.state = .CLOSED →
       cb.execute t (Except.ok ()) = ((.ok () : ExecResult Unit Unit), true, cb)) ∧
    (∀ cb : CircuitBreaker, cb.reset.failure_count = 0 ∧ cb.reset.state = .CLOSED) := by
  have hinitState : (CircuitBreaker.init F T K).state = .CLOSED := rfl
  have hinitCount : (CircuitBreaker.init F T K).failure_count = 0 := rfl
  refine ⟨?_, ?_, ?_, ?_⟩
  · intro hlt
    have h := runSeq_closed evs (CircuitBreaker.init F T K) hinitState
      (by simpa [hinitCount, CircuitBreaker.init] using hlt)
    exact ⟨h.1, by simpa [hinitCount, CircuitBreaker.init] using h.2.1⟩
  · intro t hFm1
    have hlt : failuresIn evs < F := by omega
    have h := runSeq_closed evs (CircuitBreaker.init F T K) hinitState
      (by simpa [hinitCount, CircuitBreaker.init] using hlt)
    set mid := (CircuitBreaker.init F T K).runSeq evs with hmid
    have hthr : mid.failure_threshold = F := by
      simpa [CircuitBreaker.init] using h.2.2
    have hcount : mid.failure_count = F - 1 := by
      rw [h.2.1, hFm1]; simp [CircuitBreaker.init]
    have hopen : mid.failure_threshold ≤ mid.failure_count + 1 := by
      rw [hthr, hcount]; omega
    have hrun : (CircuitBreaker.init F T K).runSeq (evs ++ [(t, false)]) =
        (mid.execute t (boolOutcome false)).2.2 := by
      rw [hmid]
      exact runSeq_append_single evs (CircuitBreaker.init F T K) t false
    rw [hrun, show boolOutcome false = Except.error () from rfl,
      execute_closed_err mid t () h.1]
    simp [hopen]
  · intro cb t hs
    exact execute_closed_ok cb t () hs
  · intro cb
    exact ⟨rfl, rfl⟩

/-- Claim C1 witness: with threshold 2, the run failure–success keeps the
breaker `CLOSED` with counter 1, and a further failure at time 7 opens it
with that failure time recorded. -/
theorem claim_C1_witness :
    (0 : Nat) < 2 ∧
    ((CircuitBreaker.init 2 5 1).runSeq [(0, false), (3, true)]).state = .CLOSED ∧
    ((CircuitBreaker.init 2 5 1).runSeq [(0, false), (3, true)]).failure_count = 1 ∧
    ((CircuitBreaker.init 2 5 1).runSeq [(0, false), (3, true), (7, false)]).state = .OPEN ∧
    ((CircuitBreaker.init 2 5 1).runSeq [(0, false), (3, true), (7, false)]).last_failure_time
      = 7 := by
  have h := claim_C1_breaker_opens_at_threshold 2 5 1 [(0, false), (3, true)] (by decide)
  have h1 := h.1 (by decide)
  have h2 := h.2.1 7 (by decide)
  exact ⟨by decide, h1.1, by simpa [failuresIn] using h1.2,
    by simpa using h2.1, by simpa using h2.2⟩

/-- Claim C2: while `OPEN` with elapsed time since the last failure at
most the recovery timeout, `execute` rejects with the circuit-open error,
never invokes the wrapped operation, and leaves the breaker (state and
all counters) unchanged. -/
theorem claim_C2_open_rejects_without_call (cb : CircuitBreaker) (now : ℚ)
    (outcome : Except Unit Unit) (hs : cb.state = .OPEN)
    (ht : now - cb.last_failure_time ≤ cb.recovery_timeout) :
    cb.execute now outcome = ((.circuitOpen : ExecResult Unit Unit), false, cb) := by
  have hnot : ¬ cb.recovery_timeout < now - cb.last_failure_time := not_lt.mpr ht
  simp [CircuitBreaker.execute, CircuitBreaker.openCheck, hs, hnot]

/-- Claim C2 witness: a breaker opened at time 100 with timeout 15 rejects
a call at time 110 without invoking the operation and without any state
change. -/
theorem claim_C2_witness :
    (⟨3, 15, 1, .OPEN, 3, 100, 0⟩ : CircuitBreaker).state = .OPEN ∧
    (110 : ℚ) - (⟨3, 15, 1, .OPEN, 3, 100, 0⟩ : CircuitBreaker).last_failure_time ≤
      (⟨3, 15, 1, .OPEN, 3, 100, 0⟩ : CircuitBreaker).recovery_timeout ∧
    (⟨3, 15, 1, .OPEN, 3, 100, 0⟩ : CircuitBreaker).execute 110 (Except.ok ()) =
      ((.circuitOpen : ExecResult Unit Unit), false, ⟨3, 15, 1, .OPEN, 3, 100, 0⟩) := by
  refine ⟨rfl, by norm_num, ?_⟩
  exact claim_C2_open_rejects_without_call _ 110 (Except.ok ()) rfl (by norm_num)

/-- Claim C3 counterexample: with recovery timeout 15 and last failure at
time 0, a call at time 15 has elapsed time equal to (hence at least) the
timeout, yet the breaker still rejects it, does not invoke the wrapped
operation, and stays `OPEN` — refuting the claim that elapsed ≥ T already
transitions to `HALF_OPEN` with the call attempted. -/
theorem claim_C3_counterexample :
    ((15 : ℚ) - (⟨3, 15, 1, .OPEN, 3, 0, 0⟩ : CircuitBreaker).last_failure_time ≥
       (⟨3, 15, 1, .OPEN, 3, 0, 0⟩ : CircuitBreaker).recovery_timeout) ∧
    ((⟨3, 15, 1, .OPEN, 3, 0, 0⟩ : CircuitBreaker).execute 15
        (Except.ok () : Except Unit Unit)).2.1 = false ∧
    ((⟨3, 15, 1, .OPEN, 3, 0, 0⟩ : CircuitBreaker).execute 15
        (Except.ok () : Except Unit Unit)).2.2.state = .OPEN := by
  refine ⟨by norm_num, ?_, ?_⟩ <;>
    simp [CircuitBreaker.execute, CircuitBreaker.openCheck]

/-- Claim C3 (amended): while `OPEN`, once the elapsed time since the last
failure strictly exceeds the recovery timeout, the next call moves the
breaker to `HALF_OPEN` with the half-open success counter reset to zero
and the wrapped operation is actually attempted. -/
theorem claim_C3_amended_strict_timeout (cb : CircuitBreaker) (now : ℚ)
    (outcome : Except Unit Unit) (hs : cb.state = .OPEN)
    (ht : cb.recovery_timeout < now - cb.last_failure_time) :
    cb.openCheck now = some { cb with state := .HALF_OPEN, half_open_successes := 0 } ∧
    (cb.execute now outcome).2.1 = true := by
  have hoc : cb.openCheck now =
      some { cb with state := .HALF_OPEN, half_open_successes := 0 } := by
    simp [CircuitBreaker.openCheck, hs, ht]
  refine ⟨hoc, ?_⟩
  cases outcome <;> simp [CircuitBreaker.execute, hoc]

/-- Claim C3 amended witness: a breaker opened at time 0 with timeout 15
admits the call at time 16 as a half-open trial. -/
theorem claim_C3_amended_witness :
    (⟨3, 15, 1, .OPEN, 3, 0, 0⟩ : CircuitBreaker).state = .OPEN ∧
    (⟨3, 15, 1, .OPEN, 3, 0, 0⟩ : CircuitBreaker).recovery_timeout <
      (16 : ℚ) - (⟨3, 15, 1, .OPEN, 3, 0, 0⟩ : CircuitBreaker).last_failure_time ∧
    (⟨3, 15, 1, .OPEN, 3, 0, 0⟩ : CircuitBreaker).openCheck 16 =
      some ⟨3, 15, 1, .HALF_OPEN, 3, 0, 0⟩ ∧
    ((⟨3, 15, 1, .OPEN, 3, 0, 0⟩ : CircuitBreaker).execute 16
        (Except.ok () : Except Unit Unit)).2.1 = true := by
  have h := claim_C3_amended_strict_timeout (⟨3, 15, 1, .OPEN, 3, 0, 0⟩ : CircuitBreaker)
    16 (Except.ok ()) rfl (by norm_num)
  exact ⟨rfl, by norm_num, h.1, h.2⟩

/-- Product record as returned by the product catalog service
(`{id, name, price, category}`; the category is never read by this core). -/
structure Product where
  id : Int
  name : String
  price : ℚ
deriving DecidableEq, Repr

/-- Errors raised by `HttpProductGateway` as `ValueError`s; the
not-found variant names the offending product id. -/
inductive ProductError where
  | productNotFound : Int → ProductError
  | communicationError : ProductError
deriving DecidableEq, Repr

/-- Client-side selection of a product by id over the full catalog list,
as in the inner loop of `HttpProductGateway.get_products` (first match
wins). -/
def findProduct (all_products : List Product) (product_id : Int) : Option Product :=
  all_products.find? (fun p => p.id == product_id)

/-- `HttpProductGateway.get_products` given the catalog response
`all_products`: resolve every requested id in order, failing with
`productNotFound` at the first id absent from the catalog. -/
def get_products (all_products : List Product) : List Int → Except ProductError (List Product)
  | [] => .ok []
  | product_id :: rest =>
    match findProduct all_products product_id with
    | none => .error (.productNotFound product_id)
    | some p =>
      match get_products all_products rest with
      | .ok ps => .ok (p :: ps)
      | .error e => .error e

theorem get_products_missing (all_products : List Product) :
    ∀ ids : List Int, (∃ pid ∈ ids, ∀ p ∈ all_products, p.id ≠ pid) →
      ∃ pid, (pid ∈ ids ∧ (∀ p ∈ all_products, p.id ≠ pid)) ∧
        get_products all_products ids = .error (.productNotFound pid) := by
  intro ids
  induction ids with
  | nil => rintro ⟨pid, hmem, _⟩; cases hmem
  | cons i rest ih =>
    rintro ⟨pid, hmem, habs⟩
    by_cases hi : ∃ p ∈ all_products, p.id = i
    · rcases hi with ⟨p, hp, hpid⟩
      have hfind : ∃ q, findProduct all_products i = some q := by
        have : (all_products.find? (fun p => p.id == i)).isSome := by
          apply List.find?_isSome.mpr
          exact ⟨p, hp, by simpa using hpid⟩
        exact Option.isSome_iff_exists.mp this
      rcases hfind with ⟨q, hq⟩
      have hpidrest : pid ∈ rest := by
        rcases List.mem_cons.mp hmem with h | h
        · exact absurd hpid (h ▸ habs p hp)
        · exact h
      rcases ih ⟨pid, hpidrest, habs⟩ with ⟨pid', hpid', herr⟩
      refine ⟨pid', ⟨List.mem_cons_of_mem _ hpid'.1, hpid'.2⟩, ?_⟩
      simp [get_products, hq, herr]
    · push_neg at hi
      have hfind : findProduct all_products i = none := by
        apply List.find?_eq_none.mpr
        intro p hp
        simpa using hi p hp
      exact ⟨i, ⟨List.mem_cons_self i rest, hi⟩, by simp [get_products, hfind]⟩

/-- Claim C4: if any requested product id is absent from the catalog
response, `get_products` fails with the `ValueError` naming a missing id
and never returns a (partial) product list. -/
theorem claim_C4_get_products_all_or_nothing (all_products : List Product)
    (ids : List Int) (h : ∃ pid ∈ ids, ∀ p ∈ all_products, p.id ≠ pid) :
    (∃ pid, (pid ∈ ids ∧ (∀ p ∈ all_products, p.id ≠ pid)) ∧
       get_products all_products ids = .error (.productNotFound pid)) ∧
    ∀ l : List Product, get_products all_products ids ≠ .ok l := by
  rcases get_products_missing all_products ids h with ⟨pid, hpid, herr⟩
  refine ⟨⟨pid, hpid, herr⟩, ?_⟩
  intro l hl
  rw [herr] at hl
  cases hl

/-- Claim C4 witness: requesting ids 1, 2, 3 against a catalog holding
only products 1 and 2 fails naming id 3 and never yields a 2-item list. -/
theorem claim_C4_witness :
    get_products [⟨1, "A", 10⟩, ⟨2, "B", 20⟩] [1, 2, 3] =
      .error (.productNotFound 3) ∧
    ∀ l : List Product, get_products [⟨1, "A", 10⟩, ⟨2, "B", 20⟩] [1, 2, 3] ≠ .ok l := by
  refine ⟨rfl, ?_⟩
  exact (claim_C4_get_products_all_or_nothing [⟨1, "A", 10⟩, ⟨2, "B", 20⟩] [1, 2, 3]
    ⟨3, by decide, by decide⟩).2

/-- User record as consumed from the users service response
(`user.get("username")` / `user.get("email")`: each key may be absent). -/
structure User where
  username : Option String
  email : Option String
deriving DecidableEq, Repr

/-- Errors raised by `HttpUserGateway` as `ValueError`s. -/
inductive UserError where
  | communicationError : UserError
deriving DecidableEq, Repr

/-- `CircuitBreakerUserGateway.get_user_by_cpf`: run the wrapped lookup
through the shared breaker; a `CircuitOpenError` and any other exception
are both caught and converted to `None`, so the caller only ever sees a
normal return. `downstream` is what `HttpUserGateway.get_user_by_cpf`
would do if invoked (`.ok none` is its 404 path). -/
def get_user_by_cpf (cb : CircuitBreaker) (now : ℚ)
    (downstream : Except UserError (Option User)) :
    Except UserError (Option User) × CircuitBreaker :=
  match cb.execute now downstream with
  | (.circuitOpen, _, cb1) => (.ok none, cb1)
  | (.ok u, _, cb1) => (.ok u, cb1)
  | (.err _, _, cb1) => (.ok none, cb1)

/-- Claim C5: the breaker-wrapped user lookup never propagates a failure:
it always returns normally, and on a circuit-open rejection or on any
error of the wrapped call the returned value is `None`. -/
theorem claim_C5_user_lookup_never_raises (cb : CircuitBreaker) (now : ℚ)
    (downstream : Except UserError (Option User)) :
    (∃ u, (get_user_by_cpf cb now downstream).1 = .ok u) ∧
    (((cb.execute now downstream).1 = .circuitOpen ∨
        ∃ e, (cb.execute now downstream).1 = .err e) →
      (get_user_by_cpf cb now downstream).1 = .ok none) := by
  unfold get_user_by_cpf
  rcases hres : cb.execute now downstream with ⟨r, inv, cb1⟩
  cases r with
  | circuitOpen => exact ⟨⟨none, rfl⟩, fun _ => rfl⟩
  | ok u => refine ⟨⟨u, rfl⟩, ?_⟩; rintro (h | ⟨e, h⟩) <;> simp_all
  | err e => exact ⟨⟨none, rfl⟩, fun _ => rfl⟩

/-- Claim C5 witness: with the breaker `CLOSED` and the underlying call
failing, the lookup still returns normally with `None`; with the breaker
freshly `OPEN`, the rejected call also returns `None`. -/
theorem claim_C5_witness :
    (get_user_by_cpf (⟨3, 15, 1, .CLOSED, 0, 0, 0⟩ : CircuitBreaker) 1
       (Except.error .communicationError)).1 = .ok none ∧
    (get_user_by_cpf (⟨3, 15, 1, .OPEN, 3, 0, 0⟩ : CircuitBreaker) 1
       (Except.error .communicationError)).1 = .ok none := by
  constructor
  · refine (claim_C5_user_lookup_never_raises (⟨3, 15, 1, .CLOSED, 0, 0, 0⟩ : CircuitBreaker)
      1 (Except.error .communicationError)).2 (Or.inr ⟨.communicationError, ?_⟩)
    rw [execute_closed_err _ _ _ rfl]
  · refine (claim_C5_user_lookup_never_raises (⟨3, 15, 1, .OPEN, 3, 0, 0⟩ : CircuitBreaker)
      1 (Except.error .communicationError)).2 (Or.inl ?_)
    norm_num [CircuitBreaker.execute, CircuitBreaker.openCheck]

/-- Order status enumeration from `tech/domain/entities/orders.py`. -/
inductive OrderStatus where
  | RECEIVED
  | PREPARING
  | READY
  | FINISHED
  | AWAITING_PAYMENT
  | PAID
  | PAYMENT_FAILED
  | PAYMENT_ERROR
deriving DecidableEq, Repr

/-- String value of each `OrderStatus` member. -/
def OrderStatus.value : OrderStatus → String
  | .RECEIVED => "RECEIVED"
  | .PREPARING => "PREPARING"
  | .READY => "READY"
  | .FINISHED => "FINISHED"
  | .AWAITING_PAYMENT => "AWAITING_PAYMENT"
  | .PAID => "PAID"
  | .PAYMENT_FAILED => "PAYMENT_FAILED"
  | .PAYMENT_ERROR => "PAYMENT_ERROR"

/-- Python truthiness of an optional string: `None` and the empty string
are falsy. -/
def truthyOptStr : Option String → Bool
  | none => false
  | some s => !(s == "")

/-- A persisted order row: id, immutable price and product-id string,
status, and the optional customer snapshot columns. -/
structure StoredOrder where
  id : Int
  total_price : ℚ
  product_ids : String
  status : OrderStatus
  user_name : Option String
  user_email : Option String
  user_cpf : Option String
deriving DecidableEq, Repr

/-- Product entry of an order response (`ProductDetail` in
`order_schema.py`). -/
structure ProductDetail where
  id : Int
  name : String
  price : ℚ
deriving DecidableEq, Repr

/-- Split a character sequence on commas, as `str.split(',')` does: the
empty sequence yields one empty piece, and every comma starts a new
piece. -/
def splitComma : List Char → List (List Char)
  | [] => [[]]
  | c :: rest =>
    match splitComma rest with
    | [] => [[c]]
    | s :: ss => if c = ',' then [] :: s :: ss else (c :: s) :: ss

/-- A decimal digit's value, `none` on any other character. -/
def charDigit (c : Char) : Option Nat :=
  if c.isDigit then some (c.toNat - '0'.toNat) else none

/-- Accumulate decimal digits left to right; `none` while no digit has
been read yet or on a non-digit character. -/
def parseNatChars : List Char → Option Nat → Option Nat
  | [], acc => acc
  | c :: rest, acc =>
    match charDigit c with
    | none => none
    | some d => parseNatChars rest (some (acc.getD 0 * 10 + d))

/-- Python's `int` on one comma-separated piece: an optional sign
followed by at least one digit; anything else raises (`none`). -/
def parseIntChars : List Char → Option Int
  | '-' :: rest => (parseNatChars rest none).map (fun n => -(n : Int))
  | cs => (parseNatChars cs none).map (fun n => (n : Int))

/-- `list(map(int, order.product_ids.split(','))) if order.product_ids
else []`: the empty string yields no ids; a piece that is not an integer
makes `int` raise, modelled as `none`. -/
def parseProductIds (s : String) : Option (List Int) :=
  if s = "" then some [] else (splitComma s.data).mapM parseIntChars

/-- The shared read-path enrichment (lines 67–81 of
`list_orders_use_case.py`, 120–137 of `order_controller.py`, 65–80 of
`update_order_status_use_case.py`): when the order has product ids, ask
the product gateway; on a gateway failure substitute the placeholder
`{id, "Unknown", 0}` entry for every requested id. `gw` is what the
gateway call would return if made. -/
def buildProductDetails (ids : List Int) (gw : Except ProductError (List Product)) :
    List ProductDetail :=
  if ids.isEmpty then []
  else
    match gw with
    | .ok products => products.map (fun p => { id := p.id, name := p.name, price := p.price })
    | .error _ => ids.map (fun pid => { id := pid, name := "Unknown", price := 0 })

/-- Errors surfaced by the read paths as `ValueError`s. -/
inductive ReadError where
  | orderNotFound : Int → ReadError
  | invalidProductIds : ReadError
deriving DecidableEq, Repr

/-- Externally visible order view (`OrderPublic` plus the optional
`user_info` sub-record, flattened into its two fields). -/
structure OrderView where
  id : Int
  total_price : ℚ
  status : String
  products : List ProductDetail
  user_info_name : Option String
  user_info_email : Option String
deriving DecidableEq, Repr

/-- `OrderController.get_order`: not-found orders fail; otherwise parse
the product-id string, enrich with product details (degrading to
placeholders on gateway failure), and attach the customer snapshot when
the stored name is truthy (the email only alongside a name). -/
def get_order (order_id : Int) (stored : Option StoredOrder)
    (gw : Except ProductError (List Product)) : Except ReadError OrderView :=
  match stored with
  | none => .error (.orderNotFound order_id)
  | some o =>
    match parseProductIds o.product_ids with
    | none => .error .invalidProductIds
    | some ids =>
      .ok { id := o.id
            total_price := o.total_price
            status := o.status.value
            products := buildProductDetails ids gw
            user_info_name := if truthyOptStr o.user_name then o.user_name else none
            user_info_email :=
              if truthyOptStr o.user_name && truthyOptStr o.user_email then o.user_email
              else none }

/-- One order's view as built inside the loop of
`ListOrdersUseCase.execute`; here name and email are attached
independently of each other. `none` is the uncaught `int()` failure. -/
def listOrderView (o : StoredOrder) (gw : Except ProductError (List Product)) :
    Option OrderView :=
  match parseProductIds o.product_ids with
  | none => none
  | some ids =>
    some { id := o.id
           total_price := o.total_price
           status := o.status.value
           products := buildProductDetails ids gw
           user_info_name := if truthyOptStr o.user_name then o.user_name else none
           user_info_email := if truthyOptStr o.user_email then o.user_email else none }

/-- `ListOrdersUseCase.execute` over the page of stored orders, each
paired with what the product gateway would answer for its ids. -/
def list_orders : List (StoredOrder × Except ProductError (List Product)) →
    Option (List OrderView)
  | [] => some []
  | (o, gw) :: rest =>
    match listOrderView o gw with
    | none => none
    | some v =>
      match list_orders rest with
      | none => none
      | some vs => some (v :: vs)

/-- `UpdateOrderStatusUseCase.execute`: overwrite the status
unconditionally, persist, then re-run the aggregation read (the customer
snapshot is attached on `is not None` here, not on truthiness). -/
def update_order_status (order_id : Int) (stored : Option StoredOrder)
    (new_status : OrderStatus) (gw : Except ProductError (List Product)) :
    Except ReadError OrderView :=
  match stored with
  | none => .error (.orderNotFound order_id)
  | some o =>
    let updated := { o with status := new_status }
    match parseProductIds updated.product_ids with
    | none => .error .invalidProductIds
    | some ids =>
      .ok { id := updated.id
            total_price := updated.total_price
            status := updated.status.value
            products := buildProductDetails ids gw
            user_info_name := updated.user_name
            user_info_email := updated.user_email }

/-- Claim C6: on all three read paths — get order by id, list orders, and
the read following a status update — a product-gateway failure over a
non-empty product-id list never fails the read: the response is produced
with the placeholder `{id, "Unknown", 0}` entry substituted for every
requested product id. -/
theorem claim_C6_reads_degrade_to_placeholders (order_id : Int) (o : StoredOrder)
    (ids : List Int) (e : ProductError) (new_status : OrderStatus)
    (hp : parseProductIds o.product_ids = some ids) (hne : ids ≠ []) :
    (∃ v, get_order order_id (some o) (.error e) = .ok v ∧
       v.products = ids.map (fun pid => { id := pid, name := "Unknown", price := 0 })) ∧
    (∃ v, list_orders [(o, .error e)] = some [v] ∧
       v.products = ids.map (fun pid => { id := pid, name := "Unknown", price := 0 })) ∧
    (∃ v, update_order_status order_id (some o) new_status (.error e) = .ok v ∧
       v.products = ids.map (fun pid => { id := pid, name := "Unknown", price := 0 })) := by
  have hids : ids.isEmpty = false := by
    cases ids with
    | nil => exact absurd rfl hne
    | cons a l => rfl
  have hbuild : buildProductDetails ids (.error e) =
      ids.map (fun pid => { id := pid, name := "Unknown", price := 0 }) := by
    simp [buildProductDetails, hids]
  refine ⟨?_, ?_, ?_⟩
  · simp only [get_order, hp]
    exact ⟨_, rfl, hbuild⟩
  · simp only [list_orders, listOrderView, hp]
    exact ⟨_, rfl, hbuild⟩
  · simp only [update_order_status, hp]
    exact ⟨_, rfl, hbuild⟩

/-- Claim C6 witness: an order with `product_ids = "5,6"` read while the
catalog is down yields the placeholder entries for ids 5 and 6 on each of
the three read paths. -/
theorem claim_C6_witness :
    parseProductIds "5,6" = some [5, 6] ∧
    (∃ v, get_order 1
        (some ⟨1, 30, "5,6", .RECEIVED, none, none, none⟩) (.error .communicationError)
        = .ok v ∧
       v.products = [{ id := 5, name := "Unknown", price := 0 },
                     { id := 6, name := "Unknown", price := 0 }]) ∧
    (∃ v, list_orders [(⟨1, 30, "5,6", .RECEIVED, none, none, none⟩,
        .error .communicationError)] = some [v] ∧
       v.products = [{ id := 5, name := "Unknown", price := 0 },
                     { id := 6, name := "Unknown", price := 0 }]) := by
  have hp : parseProductIds "5,6" = some [5, 6] := by decide
  have h := claim_C6_reads_degrade_to_placeholders 1
    (⟨1, 30, "5,6", .RECEIVED, none, none, none⟩ : StoredOrder) [5, 6]
    .communicationError .RECEIVED hp (by decide)
  exact ⟨hp, h.1, h.2.1⟩

/-- Inbound creation payload (`OrderCreate` in `order_schema.py`). -/
structure OrderCreate where
  product_ids : List Int
  cpf : Option String
deriving DecidableEq, Repr

/-- The order entity handed to `order_repository.add` by
`CreateOrderUseCase.execute` (the repository assigns the id and the
timestamps). -/
structure CreatedOrder where
  total_price : ℚ
  product_ids : String
  status : OrderStatus
  user_name : Option String
  user_email : Option String
deriving DecidableEq, Repr

/-- `','.join(map(str, product_ids))`. -/
def joinProductIds (ids : List Int) : String :=
  String.intercalate "," (ids.map toString)

/-- `CreateOrderUseCase.execute`: resolve the product prices (a gateway
failure aborts creation), accumulate the total price, optionally look up
the customer when a truthy CPF is supplied (any `ValueError` is caught
and ignored; a missing user leaves the snapshot empty), and persist with
status `RECEIVED`. `gwP` and `gwU` are what the two gateway calls would
return. -/
def create_order (data : OrderCreate) (gwP : Except ProductError (List Product))
    (gwU : Except UserError (Option User)) : Except ProductError CreatedOrder :=
  match gwP with
  | .error e => .error e
  | .ok products =>
    let total_price := products.foldl (fun acc p => acc + p.price) 0
    let userFields : Option String × Option String :=
      if truthyOptStr data.cpf then
        match gwU with
        | .error _ => (none, none)
        | .ok none => (none, none)
        | .ok (some u) => (u.username, u.email)
      else (none, none)
    .ok { total_price := total_price
          product_ids := joinProductIds data.product_ids
          status := .RECEIVED
          user_name := userFields.1
          user_email := userFields.2 }

theorem foldl_add_map_price (l : List Product) :
    ∀ c : ℚ, l.foldl (fun acc p => acc + p.price) c = c + (l.map (fun p => p.price)).sum := by
  induction l with
  | nil => intro c; simp
  | cons p rest ih =>
    intro c
    simp only [List.foldl_cons, List.map_cons, List.sum_cons, ih]
    ring

/-- Claim C7: when product pricing succeeds but the optional customer
lookup fails or finds no user, creation still succeeds: the persisted
order has status `RECEIVED`, total price equal to the exact sum of the
resolved product prices, and an empty customer snapshot. -/
theorem claim_C7_creation_survives_user_failure (data : OrderCreate)
    (products : List Product) (gwU : Except UserError (Option User))
    (hU : (∃ e, gwU = .error e) ∨ gwU = .ok none) :
    ∃ ord, create_order data (.ok products) gwU = .ok ord ∧
      ord.status = .RECEIVED ∧
      ord.total_price = (products.map (fun p => p.price)).sum ∧
      ord.user_name = none ∧ ord.user_email = none := by
  have htotal : products.foldl (fun acc p => acc + p.price) 0 =
      (products.map (fun p => p.price)).sum := by
    simpa using foldl_add_map_price products 0
  have hfields : (if truthyOptStr data.cpf then
      match gwU with
      | .error _ => ((none : Option String), (none : Option String))
      | .ok none => (none, none)
      | .ok (some u) => (u.username, u.email)
      else (none, none)) = (none, none) := by
    rcases hU with ⟨e, he⟩ | he <;> subst he <;>
      by_cases hc : truthyOptStr data.cpf <;> simp [hc]
  refine ⟨_, rfl, rfl, ?_, ?_, ?_⟩
  · simpa [create_order] using htotal
  · simp [create_order, hfields]
  · simp [create_order, hfields]

/-- Claim C7 witness: creating an order for products 1 and 2 priced 10
and 20 with the customer service unreachable yields a `RECEIVED` order
with total price 30 and no customer fields. -/
theorem claim_C7_witness :
    (∃ ord, create_order ⟨[1, 2], some "12345678900"⟩
        (.ok [⟨1, "A", 10⟩, ⟨2, "B", 20⟩]) (.error .communicationError) = .ok ord ∧
      ord.status = .RECEIVED ∧
      ord.total_price = (([⟨1, "A", 10⟩, ⟨2, "B", 20⟩] : List Product).map
        (fun p => p.price)).sum ∧
      ord.user_name = none ∧ ord.user_email = none) ∧
    (([⟨1, "A", 10⟩, ⟨2, "B", 20⟩] : List Product).map (fun p => p.price)).sum = 30 := by
  constructor
  · exact claim_C7_creation_survives_user_failure ⟨[1, 2], some "12345678900"⟩
      [⟨1, "A", 10⟩, ⟨2, "B", 20⟩] (.error .communicationError)
      (Or.inl ⟨.communicationError, rfl⟩)
  · norm_num

/-- A payment request message as built by
`RequestPaymentUseCase.execute`: order id, amount, and the customer-info
sub-record with independently nullable fields. -/
structure PaymentMessage where
  order_id : Int
  amount : ℚ
  customer_name : Option String
  customer_email : Option String
  customer_cpf : Option String
deriving DecidableEq, Repr

/-- Failures of the payment-request operation, both surfaced as
`ValueError`s. -/
inductive PaymentRequestError where
  | orderNotFound : Int → PaymentRequestError
  | publishFailed : PaymentRequestError
deriving DecidableEq, Repr

/-- `RequestPaymentUseCase.execute`: look the order up, build the payment
message, hand it to `message_broker.publish` (queue `payment_requests`),
and only when the publish succeeded flip the status to
`AWAITING_PAYMENT` and call `order_repository.update`.  Returns the
result, the list of publish calls made (queue name and message), and the
list of repository update calls made. -/
def request_payment (order_id : Int) (stored : Option StoredOrder) (publishOk : Bool) :
    Except PaymentRequestError StoredOrder × List (String × PaymentMessage) ×
      List StoredOrder :=
  match stored with
  | none => (.error (.orderNotFound order_id), [], [])
  | some order =>
    let msg : PaymentMessage :=
      { order_id := order.id
        amount := order.total_price
        customer_name := order.user_name
        customer_email := order.user_email
        customer_cpf := order.user_cpf }
    if publishOk then
      let updated := { order with status := .AWAITING_PAYMENT }
      (.ok updated, [("payment_requests", msg)], [updated])
    else
      (.error .publishFailed, [("payment_requests", msg)], [])

/-- Claim C8: for an existing order, requesting payment publishes exactly
one message carrying the order id, the order's total price as the
amount, and the customer snapshot, to the `payment_requests` queue; on
publish success the order is persisted with status `AWAITING_PAYMENT`
(exactly one repository update); on publish failure the whole operation
fails and the repository update is never called, leaving the stored
status untouched. -/
theorem claim_C8_publish_then_persist (order_id : Int) (order : StoredOrder) :
    (∀ publishOk : Bool,
       (request_payment order_id (some order) publishOk).2.1 =
         [("payment_requests",
           { order_id := order.id
             amount := order.total_price
             customer_name := order.user_name
             customer_email := order.user_email
             customer_cpf := order.user_cpf })]) ∧
    ((request_payment order_id (some order) true).1 =
       .ok { order with status := .AWAITING_PAYMENT } ∧
     (request_payment order_id (some order) true).2.2 =
       [{ order with status := .AWAITING_PAYMENT }]) ∧
    ((request_payment order_id (some order) false).1 = .error .publishFailed ∧
     (request_payment order_id (some order) false).2.2 = []) := by
  refine ⟨?_, ⟨rfl, rfl⟩, rfl, rfl⟩
  intro publishOk
  cases publishOk <;> rfl

/-- The fixed payment-outcome → order-status table of
`OrderUpdateService._map_payment_status_to_order_status`. -/
def map_payment_status_to_order_status (payment_status : String) : Option String :=
  if payment_status = "APPROVED" then some "PAID"
  else if payment_status = "PENDING" then some "AWAITING_PAYMENT"
  else if payment_status = "REJECTED" then some "PAYMENT_FAILED"
  else if payment_status = "ERROR" then some "PAYMENT_ERROR"
  else none

/-- The order-update HTTP calls `OrderUpdateService.update_order_status`
issues: one PUT with the mapped status when the payment status maps, none
otherwise (every error is caught and turned into a result dict). -/
def update_order_status_calls (order_id : Int) (payment_status : String) :
    List (Int × String) :=
  match map_payment_status_to_order_status payment_status with
  | none => []
  | some order_status => [(order_id, order_status)]

/-- How the worker settles a delivered message. -/
inductive AckAction where
  | ack
  | nackNoRequeue
deriving DecidableEq, Repr

/-- The payment-response `callback` on an already JSON-decoded message:
`message.get('order_id')` / `message.get('status')` are `none` when
absent; `if not order_id or not status` discards (with an ack) messages
whose fields are missing or falsy (`0`, `""`); otherwise the order-update
service runs and the message is acked.  Returns the ack decision and the
order-update calls made. -/
def payment_response_callback (order_id : Option Int) (status : Option String) :
    AckAction × List (Int × String) :=
  match order_id, status with
  | some oid, some st =>
    if oid == 0 || st == "" then (.ack, [])
    else (.ack, update_order_status_calls oid st)
  | _, _ => (.ack, [])

/-- Claim C9: the consumer maps payment outcome codes by the fixed table
APPROVED→PAID, PENDING→AWAITING_PAYMENT, REJECTED→PAYMENT_FAILED,
ERROR→PAYMENT_ERROR (every other code maps to nothing); a truthy message
whose code maps invokes exactly one order update with the mapped status
and is acked, and one whose code does not map is acked with no order
update invoked. -/
theorem claim_C9_payment_response_mapping :
    map_payment_status_to_order_status "APPROVED" = some "PAID" ∧
    map_payment_status_to_order_status "PENDING" = some "AWAITING_PAYMENT" ∧
    map_payment_status_to_order_status "REJECTED" = some "PAYMENT_FAILED" ∧
    map_payment_status_to_order_status "ERROR" = some "PAYMENT_ERROR" ∧
    (∀ s : String, s ≠ "APPROVED" → s ≠ "PENDING" → s ≠ "REJECTED" → s ≠ "ERROR" →
       map_payment_status_to_order_status s = none) ∧
    (∀ oid : Int, ∀ st mapped : String, oid ≠ 0 →
       map_payment_status_to_order_status st = some mapped →
       payment_response_callback (some oid) (some st) = (.ack, [(oid, mapped)])) ∧
    (∀ oid : Int, ∀ st : String, oid ≠ 0 → st ≠ "" →
       map_payment_status_to_order_status st = none →
       payment_response_callback (some oid) (some st) = (.ack, [])) := by
  refine ⟨rfl, rfl, rfl, rfl, ?_, ?_, ?_⟩
  · intro s h1 h2 h3 h4
    simp [map_payment_status_to_order_status, h1, h2, h3, h4]
  · intro oid st mapped hoid hmap
    have hst : st ≠ "" := by
      rintro rfl
      simp [map_payment_status_to_order_status] at hmap
    simp [payment_response_callback, update_order_status_calls, hoid, hst, hmap]
  · intro oid st hoid hst hmap
    simp [payment_response_callback, update_order_status_calls, hoid, hst, hmap]

/-- Claim C9 witness: `{order_id: 1, status: "APPROVED"}` drives exactly
one update of order 1 to `PAID` and is acked; `{order_id: 1, status:
"BOGUS"}` is acked without any update. -/
theorem claim_C9_witness :
    payment_response_callback (some 1) (some "APPROVED") = (.ack, [(1, "PAID")]) ∧
    payment_response_callback (some 1) (some "BOGUS") = (.ack, []) := by
  have h := claim_C9_payment_response_mapping
  refine ⟨h.2.2.2.2.2.1 1 "APPROVED" "PAID" (by decide) rfl, ?_⟩
  exact h.2.2.2.2.2.2 1 "BOGUS" (by decide) (by decide) rfl

/-- Claim C10: a message whose `order_id` is the integer 0 or whose
`status` is the empty string is handled exactly like one lacking that
field — acked and discarded with no order update — because the
malformed-message guard tests Python truthiness, not presence. -/
theorem claim_C10_falsy_fields_discarded :
    (∀ st : String,
       payment_response_callback (some 0) (some st) =
         payment_response_callback none (some st) ∧
       payment_response_callback (some 0) (some st) = (.ack, [])) ∧
    (∀ oid : Int,
       payment_response_callback (some oid) (some "") =
         payment_response_callback (some oid) none ∧
       payment_response_callback (some oid) (some "") = (.ack, [])) := by
  constructor
  · intro st
    constructor <;> simp [payment_response_callback]
  · intro oid
    constructor <;> simp [payment_response_callback]
